import Mathlib

/-!
Shallow embedding of `src/operator/controllers/dashboard_controller.go`
(the Instana custom-dashboard operator) and proofs about its reconcile
state machine.

The Go reconciler is embedded as a pure function.  All I/O performed by
one `Reconcile` invocation is made explicit:

* responses of the remote Instana API (the parsed JSON body — `json.Unmarshal`
  leaves the zero value `{Id:="", Title:=""}` on malformed bodies — and the
  HTTP status, which the Go code only logs) are read from an `Env`;
* success or failure of the two store writes (`r.Status().Update` and
  `r.Update`) is read from the same `Env`;
* `Env.crashBetweenWrites` simulates the process dying after the status
  write was confirmed and before the metadata write is attempted;
* every remote call and every attempted store write is recorded, in
  program order, in an event trace.
-/

namespace InstanaDashboards

/-- `customv1.Dashboard.Spec`: the user-supplied opaque JSON payload. -/
structure DashboardSpec where
  config : String
deriving DecidableEq, Repr

/-- `customv1.Dashboard.Status`: fields written by the reconciler. -/
structure DashboardStatus where
  dashboardId : String
  dashboardTitle : String
deriving DecidableEq, Repr

/-- The parts of `metav1.ObjectMeta` the reconciler reads or writes.
`deletionTimestamp` models the `*metav1.Time` pointer: `none` is Go `nil`. -/
structure ObjectMeta where
  name : String
  nspace : String
  deletionTimestamp : Option Nat
  finalizers : List String
deriving DecidableEq, Repr

/-- `customv1.Dashboard`. -/
structure Dashboard where
  metadata : ObjectMeta
  spec : DashboardSpec
  status : DashboardStatus
deriving DecidableEq, Repr

/-- `InstanaApiResponse` from the Go source: the JSON-decoded body of a
remote call.  `json.Unmarshal` into this struct yields `{"", ""}` when the
body is empty or malformed. -/
structure InstanaApiResponse where
  id : String
  title : String
deriving DecidableEq, Repr

/-- `InstanaApiConfig` from the Go source. -/
structure InstanaApiConfig where
  apiToken : String
  baseUrl : String
deriving DecidableEq, Repr

/-- An HTTP request issued to the remote Instana service. -/
structure HttpRequest where
  method : String
  url : String
  body : String
deriving DecidableEq, Repr

/-- One reconcile invocation's external world: what the remote service
answers and whether each store write succeeds.  The HTTP statuses are
received (and logged) by the Go code but never branched on. -/
structure Env where
  createStatus : Nat
  createResponse : InstanaApiResponse
  deleteStatus : Nat
  deleteResponse : InstanaApiResponse
  statusUpdateOk : Bool
  metaUpdateOk : Bool
  crashBetweenWrites : Bool
deriving DecidableEq, Repr

/-- Observable events of one reconcile invocation, in program order.
Store-write events record the object handed to the write, whether or not
the write then succeeds. -/
inductive Event where
  | remoteCall (req : HttpRequest)
  | statusUpdate (d : Dashboard)
  | metaUpdate (d : Dashboard)
deriving DecidableEq, Repr

/-- Outcome of `Reconcile`: Go returns `(ctrl.Result{}, error)`;
`crashed` marks a simulated process death mid-invocation. -/
inductive RecResult where
  | ok
  | err
  | crashed
deriving DecidableEq, Repr

/-- What one reconcile invocation did: its event trace, the store's state
for this identity afterwards, and the returned result. -/
structure Outcome where
  trace : List Event
  store : Option Dashboard
  result : RecResult
deriving DecidableEq, Repr

/-- `controllerutil.ContainsFinalizer`. -/
def containsFinalizer (d : Dashboard) (f : String) : Bool :=
  d.metadata.finalizers.contains f

/-- `controllerutil.AddFinalizer`: append if absent. -/
def AddFinalizer (d : Dashboard) (f : String) : Dashboard :=
  if d.metadata.finalizers.contains f then d
  else { d with metadata := { d.metadata with finalizers := d.metadata.finalizers ++ [f] } }

/-- `controllerutil.RemoveFinalizer`: remove every occurrence. -/
def RemoveFinalizer (d : Dashboard) (f : String) : Dashboard :=
  { d with metadata := { d.metadata with finalizers := d.metadata.finalizers.filter (fun s => s ≠ f) } }

/-- The finalizer name hard-coded in `Reconcile`. -/
def finalizerName : String := "dashboard.custom.instana.io/finalizer"

/-- `createDashboardInInstana`: POSTs `dashboard.Spec.Config` to
`baseUrl + "/api/custom-dashboard"` and returns the JSON-decoded body.
The HTTP status is logged but ignored.  Embedded as the request it builds
together with the decoded response supplied by the environment. -/
def createDashboardInInstana (dashboard : Dashboard) (apiConfig : InstanaApiConfig)
    (env : Env) : HttpRequest × InstanaApiResponse :=
  ({ method := "POST"
     url := apiConfig.baseUrl ++ "/api/custom-dashboard"
     body := dashboard.spec.config },
   env.createResponse)

/-- `deleteDashboardInInstana`: DELETEs
`baseUrl + "/api/custom-dashboard/" + dashboard.Status.DashboardId` and
returns the JSON-decoded body; the HTTP status is logged but ignored.
It is called whatever `Status.DashboardId` holds, including `""`. -/
def deleteDashboardInInstana (dashboard : Dashboard) (apiConfig : InstanaApiConfig)
    (env : Env) : HttpRequest × InstanaApiResponse :=
  ({ method := "DELETE"
     url := apiConfig.baseUrl ++ "/api/custom-dashboard/" ++ dashboard.status.dashboardId
     body := "" },
   env.deleteResponse)

/-- Lines 111–112 of the Go source: copy the remote create response into
the status fields (done unconditionally, whatever the response holds). -/
def withStatusFromResponse (d : Dashboard) (resp : InstanaApiResponse) : Dashboard :=
  { d with status := { dashboardId := resp.id, dashboardTitle := resp.title } }

/-- `DashboardReconciler.Reconcile`, lines 63–127 of the Go source, for one
identity whose current store state is `store` (`none` = not found):

* not found → `client.IgnoreNotFound`: success, nothing else happens;
* `DeletionTimestamp != nil` → call `deleteDashboardInInstana`
  unconditionally (its outcome is discarded), `RemoveFinalizer`, then
  `r.Update`; the update's error, if any, is returned;
* `Status.DashboardId != ""` → skip, success;
* otherwise → `createDashboardInInstana`, copy the response into the
  status fields, `r.Status().Update` (on error return it), `AddFinalizer`,
  `r.Update` (on error return it), success.

`env.crashBetweenWrites` stops the create branch after a confirmed status
write and before the metadata write. -/
def Reconcile (apiConfig : InstanaApiConfig) (store : Option Dashboard) (env : Env) : Outcome :=
  match store with
  | none => { trace := [], store := none, result := .ok }
  | some dashboard =>
    if dashboard.metadata.deletionTimestamp.isSome then
      let (req, _resp) := deleteDashboardInInstana dashboard apiConfig env
      let d' := RemoveFinalizer dashboard finalizerName
      if env.metaUpdateOk then
        { trace := [.remoteCall req, .metaUpdate d'], store := some d', result := .ok }
      else
        { trace := [.remoteCall req, .metaUpdate d'], store := some dashboard, result := .err }
    else if dashboard.status.dashboardId ≠ "" then
      { trace := [], store := some dashboard, result := .ok }
    else
      let (creq, apiResponse) := createDashboardInInstana dashboard apiConfig env
      let d1 := withStatusFromResponse dashboard apiResponse
      if env.statusUpdateOk = false then
        { trace := [.remoteCall creq, .statusUpdate d1], store := some dashboard, result := .err }
      else if env.crashBetweenWrites then
        { trace := [.remoteCall creq, .statusUpdate d1], store := some d1, result := .crashed }
      else
        let d2 := AddFinalizer d1 finalizerName
        if env.metaUpdateOk then
          { trace := [.remoteCall creq, .statusUpdate d1, .metaUpdate d2],
            store := some d2, result := .ok }
        else
          { trace := [.remoteCall creq, .statusUpdate d1, .metaUpdate d2],
            store := some d1, result := .err }

/-- Repeated reconcile invocations for one identity: each trigger runs
`Reconcile` against the store state the previous invocation left behind.
Returns the final store state, the concatenated event trace, and the list
of per-invocation results. -/
def runTrace (apiConfig : InstanaApiConfig) :
    Option Dashboard → List Env → Option Dashboard × List Event × List RecResult
  | store, [] => (store, [], [])
  | store, env :: envs =>
    let o := Reconcile apiConfig store env
    let rest := runTrace apiConfig o.store envs
    (rest.1, o.trace ++ rest.2.1, o.result :: rest.2.2)

/-- Is this event a remote create call (HTTP POST)? -/
def isCreateCall : Event → Bool
  | .remoteCall req => req.method == "POST"
  | _ => false

/-- Is this event a remote delete call (HTTP DELETE)? -/
def isDeleteCall : Event → Bool
  | .remoteCall req => req.method == "DELETE"
  | _ => false

/-- Number of remote create calls in a trace. -/
def createCount (t : List Event) : Nat := (t.filter isCreateCall).length

/-- The object handed to a store write, if the event is one. -/
def writtenState : Event → Option Dashboard
  | .statusUpdate d => some d
  | .metaUpdate d => some d
  | .remoteCall _ => none

/-- All objects handed to store writes in a trace, in order. -/
def writtenStates (t : List Event) : List Dashboard := t.filterMap writtenState

/-! ### Concrete fixtures used in witnesses and counterexamples -/

/-- A concrete API configuration. -/
def cfg0 : InstanaApiConfig := { apiToken := "tok", baseUrl := "https://unit.instana.io" }

/-- A `Pending` resource: scenario A's `spec.config = \x7b"title":"X"\x7d`,
empty `status.remoteId`, no deletion requested, no finalizer. -/
def pendingX : Dashboard :=
  { metadata := { name := "dash-x", nspace := "default", deletionTimestamp := none, finalizers := [] }
    spec := { config := "\x7b\"title\":\"X\"\x7d" }
    status := { dashboardId := "", dashboardTitle := "" } }

/-- A `Provisioned` resource: `remoteId = "d1"`, finalizer present. -/
def provisionedD1 : Dashboard :=
  { metadata := { name := "dash-x", nspace := "default", deletionTimestamp := none,
                  finalizers := [finalizerName] }
    spec := { config := "\x7b\"title\":\"X\"\x7d" }
    status := { dashboardId := "d1", dashboardTitle := "X" } }

/-- `provisionedD1` after a user delete request: `deletionTimestamp` set. -/
def deletingD1 : Dashboard :=
  { provisionedD1 with metadata := { provisionedD1.metadata with deletionTimestamp := some 1 } }

/-- A resource in the deletion branch whose `status.remoteId` is empty
(deleted before it was ever provisioned, finalizer never added). -/
def deletingEmptyId : Dashboard :=
  { pendingX with metadata := { pendingX.metadata with deletionTimestamp := some 1 } }

/-- Environment for scenario A: remote create answers `{id:"d1", title:"X"}`
and both store writes succeed. -/
def envA : Env :=
  { createStatus := 200, createResponse := { id := "d1", title := "X" }
    deleteStatus := 200, deleteResponse := { id := "", title := "" }
    statusUpdateOk := true, metaUpdateOk := true, crashBetweenWrites := false }

/-- Environment where the remote delete fails with a retryable HTTP 500;
the store itself is healthy. -/
def envDeleteFail : Env :=
  { createStatus := 200, createResponse := { id := "", title := "" }
    deleteStatus := 500, deleteResponse := { id := "", title := "" }
    statusUpdateOk := true, metaUpdateOk := true, crashBetweenWrites := false }

/-- Environment where the remote create fails (HTTP 500, body decodes to
the zero value `{id:="", title:=""}`); the store itself is healthy. -/
def envCreateFail : Env :=
  { createStatus := 500, createResponse := { id := "", title := "" }
    deleteStatus := 200, deleteResponse := { id := "", title := "" }
    statusUpdateOk := true, metaUpdateOk := true, crashBetweenWrites := false }

/-- Environment where the status write is rejected by the store. -/
def envStatusFail : Env :=
  { createStatus := 200, createResponse := { id := "d1", title := "X" }
    deleteStatus := 200, deleteResponse := { id := "", title := "" }
    statusUpdateOk := false, metaUpdateOk := true, crashBetweenWrites := false }

/-- Environment simulating a crash between the status and metadata writes. -/
def envCrash : Env :=
  { createStatus := 200, createResponse := { id := "d1", title := "X" }
    deleteStatus := 200, deleteResponse := { id := "", title := "" }
    statusUpdateOk := true, metaUpdateOk := true, crashBetweenWrites := true }

/-! ### Helper lemmas about the embedded primitives -/

theorem RemoveFinalizer_status (d : Dashboard) (f : String) :
    (RemoveFinalizer d f).status = d.status := rfl

theorem RemoveFinalizer_spec (d : Dashboard) (f : String) :
    (RemoveFinalizer d f).spec = d.spec := rfl

theorem RemoveFinalizer_name (d : Dashboard) (f : String) :
    (RemoveFinalizer d f).metadata.name = d.metadata.name := rfl

theorem RemoveFinalizer_nspace (d : Dashboard) (f : String) :
    (RemoveFinalizer d f).metadata.nspace = d.metadata.nspace := rfl

theorem AddFinalizer_status (d : Dashboard) (f : String) :
    (AddFinalizer d f).status = d.status := by
  unfold AddFinalizer; split <;> rfl

theorem AddFinalizer_spec (d : Dashboard) (f : String) :
    (AddFinalizer d f).spec = d.spec := by
  unfold AddFinalizer; split <;> rfl

theorem AddFinalizer_name (d : Dashboard) (f : String) :
    (AddFinalizer d f).metadata.name = d.metadata.name := by
  unfold AddFinalizer; split <;> rfl

theorem AddFinalizer_nspace (d : Dashboard) (f : String) :
    (AddFinalizer d f).metadata.nspace = d.metadata.nspace := by
  unfold AddFinalizer; split <;> rfl

theorem AddFinalizer_deletionTimestamp (d : Dashboard) (f : String) :
    (AddFinalizer d f).metadata.deletionTimestamp = d.metadata.deletionTimestamp := by
  unfold AddFinalizer; split <;> rfl

theorem containsFinalizer_AddFinalizer (d : Dashboard) (f : String) :
    containsFinalizer (AddFinalizer d f) f = true := by
  by_cases h : f ∈ d.metadata.finalizers
  · simp [AddFinalizer, containsFinalizer, h]
  · simp [AddFinalizer, containsFinalizer, h]

theorem withStatusFromResponse_id (d : Dashboard) (resp : InstanaApiResponse) :
    (withStatusFromResponse d resp).status.dashboardId = resp.id := rfl

theorem withStatusFromResponse_metadata (d : Dashboard) (resp : InstanaApiResponse) :
    (withStatusFromResponse d resp).metadata = d.metadata := rfl

theorem withStatusFromResponse_spec (d : Dashboard) (resp : InstanaApiResponse) :
    (withStatusFromResponse d resp).spec = d.spec := rfl

/-- From a provisioned, not-being-deleted state one reconcile invocation is
a strict no-op: empty trace, unchanged store, success. -/
theorem reconcile_provisioned (apiConfig : InstanaApiConfig) (d : Dashboard) (env : Env)
    (hdel : d.metadata.deletionTimestamp = none) (hid : d.status.dashboardId ≠ "") :
    Reconcile apiConfig (some d) env = { trace := [], store := some d, result := .ok } := by
  simp [Reconcile, hdel, hid]

/-- Iterated version of `reconcile_provisioned`. -/
theorem runTrace_provisioned (apiConfig : InstanaApiConfig) (d : Dashboard) (envs : List Env)
    (hdel : d.metadata.deletionTimestamp = none) (hid : d.status.dashboardId ≠ "") :
    runTrace apiConfig (some d) envs =
      (some d, [], List.replicate envs.length RecResult.ok) := by
  induction envs with
  | nil => rfl
  | cons e es ih =>
    simp [runTrace, reconcile_provisioned apiConfig d e hdel hid, ih, List.replicate_succ]

theorem createCount_append (a b : List Event) :
    createCount (a ++ b) = createCount a + createCount b := by
  simp [createCount, List.filter_append]

/-- One reconcile invocation from a pending state, when the remote create
answers a non-empty id and the status write is confirmed (the only failure
modes left open being a crash between the two writes or a failing metadata
write), makes exactly one create call and leaves a state whose
`status.remoteId` is non-empty and whose deletion marker is untouched. -/
theorem reconcile_pending_step (apiConfig : InstanaApiConfig) (d : Dashboard) (env : Env)
    (hdel : d.metadata.deletionTimestamp = none) (hid : d.status.dashboardId = "")
    (hresp : env.createResponse.id ≠ "") (hst : env.statusUpdateOk = true) :
    createCount (Reconcile apiConfig (some d) env).trace = 1 ∧
    ∃ d', (Reconcile apiConfig (some d) env).store = some d' ∧
      d'.metadata.deletionTimestamp = none ∧ d'.status.dashboardId ≠ "" := by
  by_cases hcr : env.crashBetweenWrites
  · refine ⟨?_, withStatusFromResponse d env.createResponse, ?_, hdel, ?_⟩ <;>
      simp [Reconcile, hdel, hid, hst, hcr, createDashboardInInstana,
            createCount, isCreateCall, withStatusFromResponse_id, hresp]
  · by_cases hm : env.metaUpdateOk
    · refine ⟨?_, AddFinalizer (withStatusFromResponse d env.createResponse) finalizerName,
        ?_, ?_, ?_⟩
      · simp [Reconcile, hdel, hid, hst, hcr, hm, createDashboardInInstana,
              createCount, isCreateCall]
      · simp [Reconcile, hdel, hid, hst, hcr, hm, createDashboardInInstana]
      · rw [AddFinalizer_deletionTimestamp]
        exact hdel
      · rw [AddFinalizer_status, withStatusFromResponse_id]
        exact hresp
    · refine ⟨?_, withStatusFromResponse d env.createResponse, ?_, hdel, ?_⟩ <;>
        simp [Reconcile, hdel, hid, hst, hcr, hm, createDashboardInInstana,
              createCount, isCreateCall, withStatusFromResponse_id, hresp]

/-! ### Claims -/

/-- C7: reconciling an identity absent from the store returns success (the
Go code maps the not-found error through `client.IgnoreNotFound`), contacts
the remote service zero times and performs no store write: the trace is
empty and the store untouched, for every configuration and environment. -/
theorem c7_not_found_noop_success (apiConfig : InstanaApiConfig) (env : Env) :
    Reconcile apiConfig none env = { trace := [], store := none, result := .ok } := rfl

/-- C3: a resource with `status.remoteId` non-empty and no deletion
requested is an explicit no-op: reconciling it any number of times makes
zero remote calls, zero store writes, returns success each time, and
leaves the resource exactly unchanged. -/
theorem c3_provisioned_idempotent_noop (apiConfig : InstanaApiConfig) (d : Dashboard)
    (envs : List Env) (hid : d.status.dashboardId ≠ "")
    (hdel : d.metadata.deletionTimestamp = none) :
    runTrace apiConfig (some d) envs =
      (some d, [], List.replicate envs.length RecResult.ok) :=
  runTrace_provisioned apiConfig d envs hdel hid

/-- Witness for C3: the concrete provisioned resource, reconciled three
times under three different environments, is untouched. -/
theorem c3_witness :
    provisionedD1.status.dashboardId ≠ "" ∧
    provisionedD1.metadata.deletionTimestamp = none ∧
    runTrace cfg0 (some provisionedD1) [envA, envDeleteFail, envCrash] =
      (some provisionedD1, [], List.replicate 3 RecResult.ok) :=
  ⟨by decide, rfl,
   c3_provisioned_idempotent_noop cfg0 provisionedD1 [envA, envDeleteFail, envCrash]
     (by decide) rfl⟩

/-- C6: once `status.remoteId` is non-empty at the start of a reconcile, no
branch reassigns or clears it: the store state left behind, and every
object handed to a store write, carry the same `status.remoteId`. -/
theorem c6_remote_id_assigned_at_most_once (apiConfig : InstanaApiConfig) (d : Dashboard)
    (env : Env) (hid : d.status.dashboardId ≠ "") :
    (∀ d', (Reconcile apiConfig (some d) env).store = some d' →
        d'.status.dashboardId = d.status.dashboardId) ∧
    (∀ d' ∈ writtenStates (Reconcile apiConfig (some d) env).trace,
        d'.status.dashboardId = d.status.dashboardId) := by
  rcases hts : d.metadata.deletionTimestamp with _ | t
  · rw [reconcile_provisioned apiConfig d env hts hid]
    refine ⟨fun d' h => ?_, fun d' h => ?_⟩
    · injection h with h
      rw [← h]
    · simp [writtenStates] at h
  · by_cases hm : env.metaUpdateOk
    · refine ⟨fun d' h => ?_, fun d' h => ?_⟩
      · simp [Reconcile, hts, hm] at h
        rw [← h]
        rfl
      · simp [Reconcile, hts, hm, writtenStates, writtenState] at h
        rw [h]
        rfl
    · refine ⟨fun d' h => ?_, fun d' h => ?_⟩
      · simp [Reconcile, hts, hm] at h
        rw [← h]
      · simp [Reconcile, hts, hm, writtenStates, writtenState] at h
        rw [h]
        rfl

/-- Witness for C6: in the deletion branch of the concrete provisioned
resource, the store state left behind keeps `status.remoteId`. -/
theorem c6_witness :
    deletingD1.status.dashboardId ≠ "" ∧
    (RemoveFinalizer deletingD1 finalizerName).status.dashboardId =
      deletingD1.status.dashboardId :=
  ⟨by decide,
   (c6_remote_id_assigned_at_most_once cfg0 deletingD1 envA (by decide)).1
     (RemoveFinalizer deletingD1 finalizerName) (by decide)⟩

/-- C9: in the create branch, when the status write fails, `Reconcile`
returns the error immediately: the trace stops at the failed status write
(the metadata write is never attempted, so the finalizer is not added) and
the persisted state is unchanged. -/
theorem c9_status_write_failure_stops (apiConfig : InstanaApiConfig) (d : Dashboard)
    (env : Env) (hdel : d.metadata.deletionTimestamp = none)
    (hid : d.status.dashboardId = "") (hst : env.statusUpdateOk = false) :
    Reconcile apiConfig (some d) env =
      { trace := [.remoteCall (createDashboardInInstana d apiConfig env).1,
                  .statusUpdate (withStatusFromResponse d env.createResponse)],
        store := some d, result := .err } ∧
    ∀ dm, Event.metaUpdate dm ∉ (Reconcile apiConfig (some d) env).trace := by
  have heq : Reconcile apiConfig (some d) env =
      { trace := [.remoteCall (createDashboardInInstana d apiConfig env).1,
                  .statusUpdate (withStatusFromResponse d env.createResponse)],
        store := some d, result := .err } := by
    simp [Reconcile, hdel, hid, hst, reduceCtorEq, createDashboardInInstana]
  refine ⟨heq, fun dm hmem => ?_⟩
  rw [heq] at hmem
  simp [createDashboardInInstana] at hmem

/-- Witness for C9: the concrete pending resource under a failing status
write ends with an error, no finalizer, and its persisted state intact. -/
theorem c9_witness :
    envStatusFail.statusUpdateOk = false ∧
    (Reconcile cfg0 (some pendingX) envStatusFail).result = RecResult.err ∧
    (Reconcile cfg0 (some pendingX) envStatusFail).store = some pendingX := by
  have h := c9_status_write_failure_stops cfg0 pendingX envStatusFail rfl rfl rfl
  refine ⟨rfl, ?_, ?_⟩
  · rw [h.1]
  · rw [h.1]

/-- C2 counterexample: a resource in the deletion branch with an empty
`status.remoteId` still triggers a remote delete call (the Go code invokes
`deleteDashboardInInstana` unconditionally), contradicting the claim that
no remote delete call is made before the finalizer is cleared. -/
theorem c2_counterexample :
    deletingEmptyId.status.dashboardId = "" ∧
    deletingEmptyId.metadata.deletionTimestamp.isSome = true ∧
    ((Reconcile cfg0 (some deletingEmptyId) envA).trace.filter isDeleteCall).length = 1 ∧
    (Reconcile cfg0 (some deletingEmptyId) envA).store =
      some (RemoveFinalizer deletingEmptyId finalizerName) := by decide

/-- C2 amended: in the deletion branch the remote delete is invoked
unconditionally — whatever `status.remoteId` holds, including the empty
string — as the first action, before the finalizer-clearing metadata
write; the request URL simply appends the (possibly empty) id. -/
theorem c2_amended_delete_unconditional (apiConfig : InstanaApiConfig) (d : Dashboard)
    (env : Env) (hdel : d.metadata.deletionTimestamp.isSome = true) :
    (Reconcile apiConfig (some d) env).trace =
      [Event.remoteCall
         { method := "DELETE"
           url := apiConfig.baseUrl ++ "/api/custom-dashboard/" ++ d.status.dashboardId
           body := "" },
       Event.metaUpdate (RemoveFinalizer d finalizerName)] := by
  by_cases hm : env.metaUpdateOk <;>
    simp [Reconcile, hdel, hm, deleteDashboardInInstana]

/-- Witness for C2's amended statement at the concrete empty-id resource. -/
theorem c2_witness :
    deletingEmptyId.metadata.deletionTimestamp.isSome = true ∧
    (Reconcile cfg0 (some deletingEmptyId) envA).trace =
      [Event.remoteCall
         { method := "DELETE"
           url := cfg0.baseUrl ++ "/api/custom-dashboard/" ++ deletingEmptyId.status.dashboardId
           body := "" },
       Event.metaUpdate (RemoveFinalizer deletingEmptyId finalizerName)] :=
  ⟨rfl, c2_amended_delete_unconditional cfg0 deletingEmptyId envA rfl⟩

/-- C1 (code behavior at the failing input): for the provisioned resource
with deletion requested and the remote delete answering HTTP 500 — a
retryable error, which the Go code only logs — `Reconcile` still clears
the finalizer, persists that removal, and returns success instead of
surfacing a retryable error. -/
theorem c1_delete_error_swallowed :
    containsFinalizer deletingD1 finalizerName = true ∧
    envDeleteFail.deleteStatus = 500 ∧
    ((Reconcile cfg0 (some deletingD1) envDeleteFail).trace.filter isDeleteCall).length = 1 ∧
    (Reconcile cfg0 (some deletingD1) envDeleteFail).result = RecResult.ok ∧
    (Reconcile cfg0 (some deletingD1) envDeleteFail).store =
      some (RemoveFinalizer deletingD1 finalizerName) ∧
    containsFinalizer (RemoveFinalizer deletingD1 finalizerName) finalizerName = false := by
  decide

/-- C4: a resource starting `Pending` (empty `status.remoteId`, no deletion
requested) that is reconciled any number of times — where each execution
may crash between the confirmed status write and the metadata write, or
see its metadata write fail, while every create call answers a non-empty
id and every attempted status write is confirmed — triggers at most one
remote create call over the whole sequence of invocations. -/
theorem c4_at_most_once_create (apiConfig : InstanaApiConfig) (d : Dashboard)
    (envs : List Env) (hdel : d.metadata.deletionTimestamp = none)
    (hid : d.status.dashboardId = "")
    (henv : ∀ e ∈ envs, e.createResponse.id ≠ "" ∧ e.statusUpdateOk = true) :
    createCount (runTrace apiConfig (some d) envs).2.1 ≤ 1 := by
  cases envs with
  | nil => simp [runTrace, createCount]
  | cons e es =>
    obtain ⟨hresp, hst⟩ := henv e (List.mem_cons_self e es)
    obtain ⟨hcount, d', hstore, hdel', hid'⟩ :=
      reconcile_pending_step apiConfig d e hdel hid hresp hst
    have hrun : (runTrace apiConfig (some d) (e :: es)).2.1 =
        (Reconcile apiConfig (some d) e).trace ++
          (runTrace apiConfig (Reconcile apiConfig (some d) e).store es).2.1 := rfl
    rw [hrun, hstore, runTrace_provisioned apiConfig d' es hdel' hid',
      createCount_append, hcount]
    simp [createCount]

/-- Witness for C4: the concrete pending resource reconciled three times —
a crash between the writes, then a full pass, then the provisioned no-op —
sees at most one create call. -/
theorem c4_witness :
    pendingX.metadata.deletionTimestamp = none ∧ pendingX.status.dashboardId = "" ∧
    createCount (runTrace cfg0 (some pendingX) [envCrash, envA, envA]).2.1 ≤ 1 :=
  ⟨rfl, rfl,
   c4_at_most_once_create cfg0 pendingX [envCrash, envA, envA] rfl rfl (by decide)⟩

/-- C5: in the create branch the steps occur in this fixed order — remote
create with `spec.config` as payload, then the status write carrying the
response's id/title, then (only because the status write was confirmed and
no crash intervened) the metadata write carrying the finalizer — and with
all writes confirmed the resource ends provisioned with the finalizer
present and `status.remoteId` equal to the response id. -/
theorem c5_create_branch_order (apiConfig : InstanaApiConfig) (d : Dashboard) (env : Env)
    (hdel : d.metadata.deletionTimestamp = none) (hid : d.status.dashboardId = "")
    (hst : env.statusUpdateOk = true) (hcr : env.crashBetweenWrites = false)
    (hm : env.metaUpdateOk = true) :
    (Reconcile apiConfig (some d) env).trace =
      [Event.remoteCall
         { method := "POST"
           url := apiConfig.baseUrl ++ "/api/custom-dashboard"
           body := d.spec.config },
       Event.statusUpdate (withStatusFromResponse d env.createResponse),
       Event.metaUpdate
         (AddFinalizer (withStatusFromResponse d env.createResponse) finalizerName)] ∧
    (Reconcile apiConfig (some d) env).store =
      some (AddFinalizer (withStatusFromResponse d env.createResponse) finalizerName) ∧
    (Reconcile apiConfig (some d) env).result = RecResult.ok ∧
    (withStatusFromResponse d env.createResponse).status.dashboardId =
      env.createResponse.id ∧
    containsFinalizer
      (AddFinalizer (withStatusFromResponse d env.createResponse) finalizerName)
      finalizerName = true := by
  refine ⟨?_, ?_, ?_, rfl, containsFinalizer_AddFinalizer _ _⟩ <;>
    simp [Reconcile, hdel, hid, hst, hcr, hm, createDashboardInInstana]

/-- Witness for C5, scenario A: the pending resource with
`spec.config = \x7b"title":"X"\x7d` whose remote create answers
`{id:"d1", title:"X"}` ends with `status.remoteId = "d1"` and the
finalizer present. -/
theorem c5_witness :
    pendingX.status.dashboardId = "" ∧
    (Reconcile cfg0 (some pendingX) envA).store =
      some (AddFinalizer (withStatusFromResponse pendingX envA.createResponse)
        finalizerName) ∧
    (AddFinalizer (withStatusFromResponse pendingX envA.createResponse)
      finalizerName).status.dashboardId = "d1" ∧
    containsFinalizer
      (AddFinalizer (withStatusFromResponse pendingX envA.createResponse) finalizerName)
      finalizerName = true := by
  have h := c5_create_branch_order cfg0 pendingX envA rfl rfl rfl rfl rfl
  exact ⟨rfl, h.2.1, by decide, h.2.2.2.2⟩

/-- C8: once the status write succeeds (and no crash intervenes) the
finalizer is added and the metadata write attempted whatever the remote
create response held; in particular with an empty response id and a
successful metadata write the resource ends with an empty
`status.remoteId` yet the finalizer present. -/
theorem c8_finalizer_added_regardless_of_response (apiConfig : InstanaApiConfig)
    (d : Dashboard) (env : Env) (hdel : d.metadata.deletionTimestamp = none)
    (hid : d.status.dashboardId = "") (hst : env.statusUpdateOk = true)
    (hcr : env.crashBetweenWrites = false) :
    Event.metaUpdate (AddFinalizer (withStatusFromResponse d env.createResponse)
        finalizerName)
      ∈ (Reconcile apiConfig (some d) env).trace ∧
    containsFinalizer
      (AddFinalizer (withStatusFromResponse d env.createResponse) finalizerName)
      finalizerName = true ∧
    (env.metaUpdateOk = true → env.createResponse.id = "" →
      (Reconcile apiConfig (some d) env).store =
        some (AddFinalizer (withStatusFromResponse d env.createResponse) finalizerName) ∧
      (AddFinalizer (withStatusFromResponse d env.createResponse)
        finalizerName).status.dashboardId = "") := by
  refine ⟨?_, containsFinalizer_AddFinalizer _ _, fun hm hempty => ⟨?_, ?_⟩⟩
  · by_cases hm : env.metaUpdateOk <;>
      simp [Reconcile, hdel, hid, hst, hcr, hm, createDashboardInInstana]
  · simp [Reconcile, hdel, hid, hst, hcr, hm, createDashboardInInstana]
  · rw [AddFinalizer_status, withStatusFromResponse_id]
    exact hempty

/-- Witness for C8: the pending resource whose remote create failed (body
decodes to the zero value) ends with an empty `status.remoteId` and the
finalizer present: finalizer presence does not imply a recorded id. -/
theorem c8_witness :
    (Reconcile cfg0 (some pendingX) envCreateFail).store =
      some (AddFinalizer (withStatusFromResponse pendingX envCreateFail.createResponse)
        finalizerName) ∧
    (AddFinalizer (withStatusFromResponse pendingX envCreateFail.createResponse)
      finalizerName).status.dashboardId = "" ∧
    containsFinalizer
      (AddFinalizer (withStatusFromResponse pendingX envCreateFail.createResponse)
        finalizerName)
      finalizerName = true := by
  have h := c8_finalizer_added_regardless_of_response cfg0 pendingX envCreateFail rfl rfl rfl rfl
  exact ⟨(h.2.2 rfl rfl).1, (h.2.2 rfl rfl).2, h.2.1⟩

/-- C10: no branch of `Reconcile` modifies `spec.config` or the identity:
every object handed to a store write agrees with the loaded resource on
name, namespace and spec (writes only change status fields or finalizer
metadata). -/
theorem c10_writes_preserve_identity_and_spec (apiConfig : InstanaApiConfig)
    (d : Dashboard) (env : Env) :
    ∀ d' ∈ writtenStates (Reconcile apiConfig (some d) env).trace,
      d'.metadata.name = d.metadata.name ∧ d'.metadata.nspace = d.metadata.nspace ∧
      d'.spec = d.spec := by
  intro d' h
  rcases hts : d.metadata.deletionTimestamp with _ | t
  · by_cases hid : d.status.dashboardId = ""
    · by_cases hst : env.statusUpdateOk
      · by_cases hcr : env.crashBetweenWrites
        · simp [Reconcile, hts, hid, hst, hcr, writtenStates, writtenState,
                createDashboardInInstana] at h
          subst h
          exact ⟨rfl, rfl, rfl⟩
        · by_cases hm : env.metaUpdateOk <;>
            simp [Reconcile, hts, hid, hst, hcr, hm, writtenStates, writtenState,
                  createDashboardInInstana] at h <;>
            rcases h with h | h <;> subst h
          · exact ⟨rfl, rfl, rfl⟩
          · exact ⟨by rw [AddFinalizer_name, withStatusFromResponse_metadata],
              by rw [AddFinalizer_nspace, withStatusFromResponse_metadata],
              by rw [AddFinalizer_spec, withStatusFromResponse_spec]⟩
          · exact ⟨rfl, rfl, rfl⟩
          · exact ⟨by rw [AddFinalizer_name, withStatusFromResponse_metadata],
              by rw [AddFinalizer_nspace, withStatusFromResponse_metadata],
              by rw [AddFinalizer_spec, withStatusFromResponse_spec]⟩
      · simp [Reconcile, hts, hid, hst, writtenStates, writtenState,
              createDashboardInInstana] at h
        subst h
        exact ⟨rfl, rfl, rfl⟩
    · rw [reconcile_provisioned apiConfig d env hts hid] at h
      simp [writtenStates] at h
  · by_cases hm : env.metaUpdateOk <;>
      simp [Reconcile, hts, hm, writtenStates, writtenState,
            deleteDashboardInInstana] at h <;>
      subst h <;> exact ⟨rfl, rfl, rfl⟩

/-- Witness for C10: the status write of scenario A preserves the concrete
resource's name, namespace and spec. -/
theorem c10_witness :
    (withStatusFromResponse pendingX envA.createResponse).metadata.name =
      pendingX.metadata.name ∧
    (withStatusFromResponse pendingX envA.createResponse).metadata.nspace =
      pendingX.metadata.nspace ∧
    (withStatusFromResponse pendingX envA.createResponse).spec = pendingX.spec :=
  c10_writes_preserve_identity_and_spec cfg0 pendingX envA
    (withStatusFromResponse pendingX envA.createResponse) (by decide)

end InstanaDashboards
